import Mathlib

/-!
Verification of the EmailPipeLine repository against its specification.

Each worker's per-event handler is shallowly embedded as a pure Lean
function over an explicit record of the stream-event fields plus the
outcomes of the external calls (database, LLM, embedding service) the
handler makes; the result records the emitted event, the acknowledgment,
and counts of the side-effecting calls.  Floats of the Python source are
modelled as rationals, dict truthiness is modelled explicitly, and a
missing dict key is an `Option` that is `none`.
-/

namespace EmailPipeline

/-- Python truthiness of an optional string value, as in
`bool(fields.get(k))`: `None` and the empty string are falsy. -/
def optStrTruthy : Option String → Bool
  | none => false
  | some s => s != ""

/-- Python truthiness of an optional integer value, as in
`if db_message_id:`: `None` and `0` are falsy. -/
def optIntTruthy : Option Int → Bool
  | none => false
  | some n => n != 0

/-! ## Persister (src/workers/persister/main.py)

`save_message` returns the persisted row id or `None` on error;
`save_classification` returns a success boolean.  The main loop calls
`save_message`, calls `save_classification` only when the returned id is
truthy, and then unconditionally calls `xack` on the input entry
(lines 217-230 of the source).  The step function below takes the two
database outcomes as inputs and records what the loop body does. -/

/-- What one iteration of the persister loop did with a delivered entry. -/
structure PersisterResult where
  classification_attempted : Bool
  acked : Bool
  deriving Repr, DecidableEq

/-- One iteration of the persister main loop (persister/main.py lines
208-230) on a delivered classified event, parameterised by the outcome of
`save_message` (`none` models the Python `None` return on error) and the
outcome `save_classification` would report if called. -/
def persisterStep (save_message_result : Option Int)
    (save_classification_result : Bool) : PersisterResult :=
  if optIntTruthy save_message_result then
    { classification_attempted := true, acked := true }
  else
    { classification_attempted := false, acked := true }

/-- The conflict key of the classification upsert SQL in
`save_classification` (persister/main.py line 140). -/
def classification_conflict_key : String := "message_id"

/-- The columns the classification upsert inserts
(persister/main.py line 138). -/
def classification_insert_columns : List String :=
  ["message_id", "vendor", "amount_cents", "currency", "class", "confidence"]

/-- The columns the classification upsert SET-updates on conflict
(persister/main.py lines 141-146). -/
def classification_update_columns : List String :=
  ["vendor", "amount_cents", "currency", "class", "confidence", "updated_at"]

/-- A row of the `classifications` table, with exactly the value columns
named in the upsert SQL of `save_classification` (`updated_at` is not
modelled).  `class` is a Lean keyword, so the field keeps the Python
variable name `class_type` used in the source. -/
structure ClassificationRow where
  vendor : String
  amount_cents : Int
  currency : String
  class_type : String
  confidence : Rat
  deriving Repr, DecidableEq

/-- The state of the `classifications` table, keyed by `message_id`. -/
def ClassificationTable := Int → Option ClassificationRow

/-- Semantics of the `save_classification` upsert (persister/main.py lines
137-150): INSERT keyed by `message_id`; ON CONFLICT every value column of
the row is SET from the excluded (new) row, so the stored row becomes the
incoming row whether or not a row already existed. -/
def upsert_classification (table : ClassificationTable) (message_id : Int)
    (row : ClassificationRow) : ClassificationTable :=
  fun k => if k = message_id then some row else table k

/-! ## Classifier (src/workers/classifier/main.py)

`classify_email_with_claude` returns the parsed classification dict, or
the empty dict `{}` on API failure, empty response, missing JSON, or a
JSON decode error.  The returned dict, when non-empty, has exactly the
keys `class`, `confidence`, `extracted_data` (lines 141-145).  The main
loop (lines 228-263) publishes when a watcher name is present, or the
confidence is at least 0.7, or the extracted data is non-empty; it always
acks the input entry. -/

/-- Outcome of the Claude API call made by `classify_email_with_claude`:
the four failure modes all make the function return the empty dict
(classifier/main.py lines 120-122, 133-135, 151-156), while a successful
parse returns the normalized dict of lines 141-145. -/
inductive LLMOutcome where
  | apiError : LLMOutcome
  | emptyResponse : LLMOutcome
  | noJsonFound : LLMOutcome
  | jsonDecodeError : LLMOutcome
  | parsed (class_type : String) (confidence : Rat)
      (extracted_data : List (String × String)) : LLMOutcome
  deriving Repr, DecidableEq

/-- Whether the LLM call ended in one of the failure modes. -/
def llmFailed : LLMOutcome → Bool
  | .parsed _ _ _ => false
  | _ => true

/-- The dict returned by `classify_email_with_claude`, with each key
optional so that the empty dict `{}` is representable as all-`none`. -/
structure PyClassification where
  class_field : Option String
  confidence : Option Rat
  extracted_data : Option (List (String × String))
  deriving Repr, DecidableEq

/-- Return value of `classify_email_with_claude` (classifier/main.py
lines 26-156) as a function of the API call outcome: the empty dict on
any failure, otherwise the normalized three-key dict. -/
def classify_email_with_claude : LLMOutcome → PyClassification
  | .parsed c conf e => ⟨some c, some conf, some e⟩
  | _ => ⟨none, none, none⟩

/-- Fields of an `emails.to_classify.v1` stream entry read by the
classifier and forwarded by `publish_classified`. -/
structure ToClassifyEvent where
  trace_id : String
  mailbox_id : String
  idemp_key : String
  body_hash : String
  text_content : String
  subject : String
  external_id : String
  received_ts : String
  filter_watcher_id : String
  filter_watcher_name : String
  filter_query_id : String
  filter_query_text : String
  deriving Repr, DecidableEq

/-- Fields of an `emails.classified.v1` stream entry as assembled by
`publish_classified` (classifier/main.py lines 170-182).  `extracted_data`
is kept structured rather than JSON-serialized; the empty dict and the
absent dict both serialize to the same two-character JSON object, so both
are the empty list here. -/
structure ClassifiedEvent where
  trace_id : String
  mailbox_id : String
  idemp_key : String
  body_hash : String
  subject : String
  external_id : String
  received_ts : String
  class_type : String
  confidence : Rat
  watcher_id : String
  extracted_data : List (String × String)
  deriving Repr, DecidableEq

/-- `publish_classified` (classifier/main.py lines 159-186): build the
outgoing entry from the classification dict and the original fields, with
Python `dict.get` defaults for the possibly-empty dict. -/
def publish_classified (classification : PyClassification)
    (fields : ToClassifyEvent) : ClassifiedEvent :=
  { trace_id := fields.trace_id
    mailbox_id := fields.mailbox_id
    idemp_key := fields.idemp_key
    body_hash := fields.body_hash
    subject := fields.subject
    external_id := fields.external_id
    received_ts := fields.received_ts
    class_type := classification.class_field.getD ""
    confidence := classification.confidence.getD 0
    watcher_id := fields.filter_watcher_id
    extracted_data := classification.extracted_data.getD [] }

/-- What one iteration of the classifier loop did with a delivered entry. -/
structure ClassifierResult where
  published : Option ClassifiedEvent
  acked : Bool
  deriving Repr, DecidableEq

/-- One iteration of the classifier main loop (classifier/main.py lines
228-263) on a delivered entry, parameterised by the LLM call outcome:
skip classification entirely on empty `text_content`; otherwise publish
iff a watcher name is present, or the confidence (0 for the empty dict)
is at least 0.7, or the extracted data is truthy, overwriting an
un-truthy `class` with the watcher name first; ack in every case. -/
def classifierStep (fields : ToClassifyEvent) (llm : LLMOutcome) :
    ClassifierResult :=
  if fields.text_content = "" then
    { published := none, acked := true }
  else
    let classification := classify_email_with_claude llm
    let has_watcher := fields.filter_watcher_name != ""
    let confident := decide ((7 : Rat)/10 ≤ classification.confidence.getD 0)
    if has_watcher || confident ||
        (classification.extracted_data.getD []) != [] then
      let classification' :=
        if has_watcher && !(optStrTruthy classification.class_field) then
          { classification with class_field := some fields.filter_watcher_name }
        else classification
      { published := some (publish_classified classification' fields),
        acked := true }
    else
      { published := none, acked := true }

/-! ## SemanticFilter (src/workers/watcher/watcher_semantic.py)

The per-event handler is embedded as a function of the event fields and
an environment recording what the external collaborators (Supabase cache
table, Voyage embedding service, `match_watcher_queries` RPC) would
answer.  The result counts the calls actually made, so that the theorems
can speak about which calls occur on each path. -/

/-- Python whitespace, the character class of `str.strip()` and of the
regex `\s` on ASCII text. -/
def isPyWhitespace (c : Char) : Bool :=
  c = ' ' || c = '\t' || c = '\n' || c = '\r' || c = '\x0B' || c = '\x0C'

/-- Python `str.strip()` (default arguments): drop leading and trailing
whitespace. -/
def pyStrip (s : String) : String :=
  ⟨((s.data.dropWhile isPyWhitespace).reverse.dropWhile isPyWhitespace).reverse⟩

/-- The `EMAIL_TEXT_LIMIT` constant (watcher_semantic.py line 32). -/
def EMAIL_TEXT_LIMIT : Nat := 1000

/-- `build_email_text` (watcher_semantic.py lines 37-41): strip subject
and body, join with a newline, strip again, truncate to the limit. -/
def build_email_text (subject text_content : String) : String :=
  let subject' := pyStrip subject
  let text' := pyStrip text_content
  let s := pyStrip (subject' ++ "\n" ++ text')
  ⟨s.data.take EMAIL_TEXT_LIMIT⟩

/-- `similarity_from_cosine_distance` (watcher_semantic.py lines 44-45). -/
def similarity_from_cosine_distance (d : Rat) : Rat := 1 - d

/-- A row returned by the `match_watcher_queries` RPC, ordered by
ascending cosine distance. -/
structure WatcherCandidate where
  watcher_id : String
  watcher_name : String
  watcher_threshold : Rat
  query_id : String
  query_text : String
  cosine_distance : Rat
  deriving Repr, DecidableEq

/-- Fields of an `emails.normalized.v1` stream entry read by the
semantic filter. -/
structure NormalizedEvent where
  trace_id : String
  mailbox_id : String
  idemp_key : String
  body_hash : String
  text_content : String
  subject : String
  external_id : String
  received_ts : String
  deriving Repr, DecidableEq

/-- Fields of an `emails.to_classify.v1` entry as assembled by the
semantic filter (watcher_semantic.py lines 147-164).  The similarity is
kept as a rational; the source stringifies it with four decimals. -/
structure RoutedEvent where
  trace_id : String
  mailbox_id : String
  idemp_key : String
  body_hash : String
  text_content : String
  subject : String
  external_id : String
  received_ts : String
  filter_watcher_id : String
  filter_watcher_name : String
  filter_query_id : String
  filter_query_text : String
  filter_similarity : Rat
  deriving Repr, DecidableEq

/-- Answers of the external collaborators for one handled event:
the embedding-cache lookup result, the `CACHE_ONLY` flag, the embedding
the Voyage service would return, and the RPC result as a function of the
embedding it is queried with. -/
structure FilterEnv where
  cache_only : Bool
  cached : Option (List Rat)
  embed_response : List Rat
  match_watcher_queries : List Rat → List WatcherCandidate

/-- What one iteration of the semantic-filter loop did with an entry. -/
structure FilterResult where
  emitted : Option RoutedEvent
  acks : Nat
  cache_lookups : Nat
  embed_calls : Nat
  cache_upserts : Nat
  rpc_calls : Nat
  deriving Repr, DecidableEq

/-- The routing decision on the RPC result (watcher_semantic.py lines
136-179): with no candidates, no emit; otherwise take the top row,
convert distance to similarity, and emit the routed event iff the
similarity reaches the watcher threshold. -/
def semanticFilterRoute (fields : NormalizedEvent)
    (candidates : List WatcherCandidate) : Option RoutedEvent :=
  match candidates with
  | [] => none
  | best :: _ =>
    let sim := similarity_from_cosine_distance best.cosine_distance
    if best.watcher_threshold ≤ sim then
      some { trace_id := fields.trace_id
             mailbox_id := fields.mailbox_id
             idemp_key := fields.idemp_key
             body_hash := fields.body_hash
             text_content := fields.text_content
             subject := fields.subject
             external_id := fields.external_id
             received_ts := fields.received_ts
             filter_watcher_id := best.watcher_id
             filter_watcher_name := best.watcher_name
             filter_query_id := best.query_id
             filter_query_text := best.query_text
             filter_similarity := sim }
    else none

/-- One iteration of the semantic-filter main loop (watcher_semantic.py
lines 76-181) on a delivered entry: ack-and-skip on empty `mailbox_id`
or `body_hash` before any external call; ack-and-skip on assembled text
shorter than 40 characters; then the cache lookup, the cache-only skip
or the embedding call with write-through upsert, the RPC, the routing
decision, and the single final ack. -/
def semanticFilterStep (env : FilterEnv) (fields : NormalizedEvent) :
    FilterResult :=
  if fields.mailbox_id = "" || fields.body_hash = "" then
    { emitted := none, acks := 1, cache_lookups := 0, embed_calls := 0,
      cache_upserts := 0, rpc_calls := 0 }
  else if (build_email_text fields.subject fields.text_content).length < 40 then
    { emitted := none, acks := 1, cache_lookups := 0, embed_calls := 0,
      cache_upserts := 0, rpc_calls := 0 }
  else
    match env.cached with
    | some emb =>
      { emitted := semanticFilterRoute fields (env.match_watcher_queries emb), acks := 1,
        cache_lookups := 1, embed_calls := 0, cache_upserts := 0,
        rpc_calls := 1 }
    | none =>
      if env.cache_only then
        { emitted := none, acks := 1, cache_lookups := 1, embed_calls := 0,
          cache_upserts := 0, rpc_calls := 0 }
      else
        { emitted := semanticFilterRoute fields (env.match_watcher_queries env.embed_response),
          acks := 1, cache_lookups := 1, embed_calls := 1, cache_upserts := 1,
          rpc_calls := 1 }

/-- The embedding the handler ends up matching with, when it reaches the
RPC at all: the cached vector on a hit, the Voyage response on a miss
outside cache-only mode, nothing on a miss in cache-only mode. -/
def effectiveEmbedding (env : FilterEnv) : Option (List Rat) :=
  match env.cached with
  | some emb => some emb
  | none => if env.cache_only then none else some env.embed_response

/-! ## Poller watermark (src/services/imap_poller/main.py)

`publish_email` (lines 173-250) wraps its whole body, the subject gate
and the `xadd`, in a `try` block that catches every exception, so the
futures of the batch loop never raise.  The main loop (lines 568-639)
therefore counts every email of the batch as published and folds every
email's UID into `max_uid`, then sets `last_uid = max_uid` whenever the
fetched batch was non-empty, independent of gate decisions and publish
outcomes. -/

/-- One fetched email of a poll batch: its UID, whether the LLM subject
gate passed (confidence at least 0.7 and is_subscription), and whether
the `xadd` to the stream succeeded (an exception otherwise, caught
inside `publish_email`). -/
structure PolledEmail where
  uid : Nat
  gate_passed : Bool
  publish_ok : Bool
  deriving Repr, DecidableEq

/-- The watermark after one iteration of the poller main loop with the
given fetched batch (imap_poller/main.py lines 582-617): `max_uid`
starts at `last_uid` and every email of the batch raises it to its UID
if larger, no matter what the gate or the publish did; an empty batch
leaves the watermark unchanged. -/
def pollerBatchStep (last_uid : Nat) (batch : List PolledEmail) : Nat :=
  batch.foldl (fun max_uid e => if max_uid < e.uid then e.uid else max_uid)
    last_uid

/-- `published_count` as accumulated by the main loop (lines 596-606):
every future's `result()` returns normally because `publish_email` swallows
all exceptions, so every email of the batch is counted. -/
def pollerPublishedCount (batch : List PolledEmail) : Nat := batch.length

/-- The number of emails of the batch whose `xadd` to `raw_emails.v1`
actually happened and succeeded: the gate let them through and the
append did not fail. -/
def successfulPublishes (batch : List PolledEmail) : Nat :=
  (batch.filter (fun e => e.gate_passed && e.publish_ok)).length

/-! ## SHA-256 and the idempotency key (src/services/imap_poller/main.py)

`build_idempotency_key` (lines 32-48) concatenates the three strings,
UTF-8 encodes, and returns `hashlib.sha256(...).hexdigest()`.  The
`hashlib` collaborator is embedded as the FIPS 180-4 SHA-256 function
over byte lists, with 32-bit words as naturals reduced mod 2^32. -/

/-- Reduce a natural to a 32-bit word. -/
def mod32 (n : Nat) : Nat := n % 4294967296

/-- Right rotation of a 32-bit word. -/
def rotr32 (n x : Nat) : Nat := mod32 ((x >>> n) ||| (x <<< (32 - n)))

/-- Bitwise complement of a 32-bit word. -/
def not32 (x : Nat) : Nat := x ^^^ 4294967295

/-- The SHA-256 Ch function. -/
def shaCh (e f g : Nat) : Nat := (e &&& f) ^^^ (not32 e &&& g)

/-- The SHA-256 Maj function. -/
def shaMaj (a b c : Nat) : Nat := (a &&& b) ^^^ (a &&& c) ^^^ (b &&& c)

/-- The SHA-256 Σ0 function. -/
def bigSigma0 (x : Nat) : Nat := rotr32 2 x ^^^ rotr32 13 x ^^^ rotr32 22 x

/-- The SHA-256 Σ1 function. -/
def bigSigma1 (x : Nat) : Nat := rotr32 6 x ^^^ rotr32 11 x ^^^ rotr32 25 x

/-- The SHA-256 σ0 function. -/
def smallSigma0 (x : Nat) : Nat := rotr32 7 x ^^^ rotr32 18 x ^^^ (x >>> 3)

/-- The SHA-256 σ1 function. -/
def smallSigma1 (x : Nat) : Nat := rotr32 17 x ^^^ rotr32 19 x ^^^ (x >>> 10)

/-- The 64 SHA-256 round constants of FIPS 180-4, in decimal. -/
def sha256K : List Nat :=
  [1116352408, 1899447441, 3049323471, 3921009573, 961987163, 1508970993,
   2453635748, 2870763221, 3624381080, 310598401, 607225278, 1426881987,
   1925078388, 2162078206, 2614888103, 3248222580, 3835390401, 4022224774,
   264347078, 604807628, 770255983, 1249150122, 1555081692, 1996064986,
   2554220882, 2821834349, 2952996808, 3210313671, 3336571891, 3584528711,
   113926993, 338241895, 666307205, 773529912, 1294757372, 1396182291,
   1695183700, 1986661051, 2177026350, 2456956037, 2730485921, 2820302411,
   3259730800, 3345764771, 3516065817, 3600352804, 4094571909, 275423344,
   430227734, 506948616, 659060556, 883997877, 958139571, 1322822218,
   1537002063, 1747873779, 1955562222, 2024104815, 2227730452, 2361852424,
   2428436474, 2756734187, 3204031479, 3329325298]

/-- The SHA-256 working state: eight 32-bit words. -/
structure Sha256State where
  a : Nat
  b : Nat
  c : Nat
  d : Nat
  e : Nat
  f : Nat
  g : Nat
  h : Nat
  deriving Repr, DecidableEq

/-- The SHA-256 initial hash value of FIPS 180-4, in decimal. -/
def sha256init : Sha256State :=
  ⟨1779033703, 3144134277, 1013904242, 2773480762,
   1359893119, 2600822924, 528734635, 1541459225⟩

/-- Big-endian 32-bit words from a byte list (trailing bytes that do not
fill a word are dropped; padded blocks are a multiple of 4 bytes). -/
def bytesToWords : List Nat → List Nat
  | b0 :: b1 :: b2 :: b3 :: rest =>
    (b0 * 16777216 + b1 * 65536 + b2 * 256 + b3) :: bytesToWords rest
  | _ => []

/-- Extend the 16-word block by the given number of schedule words. -/
def scheduleGo (ws : Array Nat) : Nat → Array Nat
  | 0 => ws
  | n + 1 =>
    let k := ws.size
    let w := mod32 (smallSigma1 (ws.getD (k - 2) 0) + ws.getD (k - 7) 0 +
      smallSigma0 (ws.getD (k - 15) 0) + ws.getD (k - 16) 0)
    scheduleGo (ws.push w) n

/-- The 64-word message schedule of a block. -/
def sha256schedule (ws16 : List Nat) : List Nat :=
  (scheduleGo ws16.toArray 48).toList

/-- One SHA-256 round on the working state, fed one round constant and
one schedule word. -/
def sha256round (s : Sha256State) (kw : Nat × Nat) : Sha256State :=
  let t1 := mod32 (s.h + bigSigma1 s.e + shaCh s.e s.f s.g + kw.1 + kw.2)
  let t2 := mod32 (bigSigma0 s.a + shaMaj s.a s.b s.c)
  ⟨mod32 (t1 + t2), s.a, s.b, s.c, mod32 (s.d + t1), s.e, s.f, s.g⟩

/-- The SHA-256 compression function on one 64-byte block. -/
def sha256compress (s : Sha256State) (block : List Nat) : Sha256State :=
  let ws := sha256schedule (bytesToWords block)
  let t := (sha256K.zip ws).foldl sha256round s
  ⟨mod32 (s.a + t.a), mod32 (s.b + t.b), mod32 (s.c + t.c), mod32 (s.d + t.d),
   mod32 (s.e + t.e), mod32 (s.f + t.f), mod32 (s.g + t.g), mod32 (s.h + t.h)⟩

/-- A 64-bit length as eight big-endian bytes. -/
def word64Bytes (n : Nat) : List Nat :=
  [(n >>> 56) % 256, (n >>> 48) % 256, (n >>> 40) % 256, (n >>> 32) % 256,
   (n >>> 24) % 256, (n >>> 16) % 256, (n >>> 8) % 256, n % 256]

/-- A 32-bit word as four big-endian bytes. -/
def word32Bytes (w : Nat) : List Nat :=
  [(w >>> 24) % 256, (w >>> 16) % 256, (w >>> 8) % 256, w % 256]

/-- SHA-256 padding: a 0x80 byte, zeros, and the bit length as eight
big-endian bytes, to a multiple of 64 bytes. -/
def sha256pad (msg : List Nat) : List Nat :=
  let zeros := (119 - (msg.length % 64)) % 64
  msg ++ 128 :: (List.replicate zeros 0 ++ word64Bytes (8 * msg.length))

/-- Split a byte list into 64-byte blocks (fuel-driven; the initial fuel
covers every step because each step consumes at least one byte). -/
def chunks64Go : Nat → List Nat → List (List Nat)
  | _, [] => []
  | 0, _ => []
  | fuel + 1, l => l.take 64 :: chunks64Go fuel (l.drop 64)

/-- Split a byte list into 64-byte blocks. -/
def chunks64 (l : List Nat) : List (List Nat) := chunks64Go l.length l

/-- SHA-256 of a byte list, as the 32 digest bytes. -/
def sha256 (msg : List Nat) : List Nat :=
  let fin := (chunks64 (sha256pad msg)).foldl sha256compress sha256init
  word32Bytes fin.a ++ word32Bytes fin.b ++ word32Bytes fin.c ++
    word32Bytes fin.d ++ word32Bytes fin.e ++ word32Bytes fin.f ++
    word32Bytes fin.g ++ word32Bytes fin.h

/-- A hex digit as its lowercase character. -/
def hexChar (n : Nat) : Char :=
  if n < 10 then Char.ofNat (48 + n) else Char.ofNat (87 + n)

/-- A byte as two lowercase hex characters. -/
def byteHex (b : Nat) : List Char := [hexChar ((b / 16) % 16), hexChar (b % 16)]

/-- `hexdigest()`: the digest bytes as a lowercase hex string. -/
def hexDigest (bs : List Nat) : String := ⟨bs.flatMap byteHex⟩

/-- UTF-8 encoding of one code point. -/
def utf8EncodeChar (n : Nat) : List Nat :=
  if n < 128 then [n]
  else if n < 2048 then [192 + n / 64, 128 + n % 64]
  else if n < 65536 then [224 + n / 4096, 128 + (n / 64) % 64, 128 + n % 64]
  else [240 + n / 262144, 128 + (n / 4096) % 64, 128 + (n / 64) % 64,
    128 + n % 64]

/-- Python `str.encode(..)`: the UTF-8 bytes of a string. -/
def utf8Bytes (s : String) : List Nat :=
  s.data.flatMap (fun c => utf8EncodeChar c.toNat)

/-- `build_idempotency_key` (imap_poller/main.py lines 32-48):
SHA-256 of the UTF-8 bytes of the concatenated triple, as a lowercase
hex string. -/
def build_idempotency_key (provider mailbox_id external_id : String) :
    String :=
  hexDigest (sha256 (utf8Bytes (provider ++ mailbox_id ++ external_id)))

/-! ## Normalizer HTML conversion (src/workers/normalizer/main.py)

`html_to_text` (lines 28-50) is a chain of `re.sub` and `str.replace`
calls.  Each regex substitution is embedded as a recursive scanner with
exactly the semantics of the pattern used: leftmost match, the character
class `[^>]` matched greedily, the literal tail `.*?</tag>` matched
lazily (earliest closing tag), case-insensitive tag literals, and
scanning resuming after each match.  The scanners carry a fuel argument
for termination; every step consumes at least one input character, so
fuel equal to the input length never runs out. -/

/-- Case-insensitive literal match: consume the pattern off the front of
the text if it is there, returning the rest. -/
def dropLitCI : List Char → List Char → Option (List Char)
  | [], s => some s
  | _ :: _, [] => none
  | p :: ps, c :: cs =>
    if c.toLower = p.toLower then dropLitCI ps cs else none

/-- Case-sensitive literal match: consume the pattern off the front of
the text if it is there, returning the rest. -/
def dropLit : List Char → List Char → Option (List Char)
  | [], s => some s
  | _ :: _, [] => none
  | p :: ps, c :: cs => if c = p then dropLit ps cs else none

/-- Earliest case-insensitive occurrence of a literal: the rest of the
text after the first match, if any (the lazy `.*?<literal>` step). -/
def findLitCI (pat : List Char) : List Char → Option (List Char)
  | [] => match dropLitCI pat [] with
    | some r => some r
    | none => none
  | c :: cs => match dropLitCI pat (c :: cs) with
    | some r => some r
    | none => findLitCI pat cs

/-- One `re.sub(r'<tag[^>]*>.*?</tag>', '', html, DOTALL | IGNORECASE)`
pass: at each position try the literal `<tag`, then a greedy run of
non-`>` characters, a `>`, and the earliest closing literal; on a match
drop it all and resume after, otherwise emit the character and move on. -/
def removeBlocksGo (openLit closeLit : List Char) :
    Nat → List Char → List Char
  | _, [] => []
  | 0, s => s
  | fuel + 1, c :: rest =>
    match dropLitCI openLit (c :: rest) with
    | some afterOpen =>
      match afterOpen.dropWhile (fun ch => ch ≠ '>') with
      | '>' :: afterGt =>
        match findLitCI closeLit afterGt with
        | some afterClose => removeBlocksGo openLit closeLit fuel afterClose
        | none => c :: removeBlocksGo openLit closeLit fuel rest
      | _ => c :: removeBlocksGo openLit closeLit fuel rest
    | none => c :: removeBlocksGo openLit closeLit fuel rest

/-- Remove every `<tag ...> ... </tag>` block for the given tag name
(normalizer/main.py lines 34-35). -/
def removeBlocks (tag : List Char) (s : List Char) : List Char :=
  removeBlocksGo ('<' :: tag) ('<' :: '/' :: (tag ++ ['>'])) s.length s

/-- `re.sub(r'<[^>]+>', '', html)` (normalizer/main.py line 38): at each
`<`, a greedy non-empty run of non-`>` characters followed by `>` is a
tag and is dropped; otherwise the character is kept. -/
def removeTagsGo : Nat → List Char → List Char
  | _, [] => []
  | 0, s => s
  | fuel + 1, c :: rest =>
    if c = '<' then
      match rest.takeWhile (fun ch => ch ≠ '>'),
          rest.dropWhile (fun ch => ch ≠ '>') with
      | _ :: _, '>' :: afterGt => removeTagsGo fuel afterGt
      | _, _ => c :: removeTagsGo fuel rest
    else c :: removeTagsGo fuel rest

/-- Remove all HTML tags. -/
def removeTags (s : List Char) : List Char := removeTagsGo s.length s

/-- Python `str.replace(old, new)`: replace every non-overlapping
occurrence, left to right. -/
def replaceAllGo (pat repl : List Char) : Nat → List Char → List Char
  | _, [] => []
  | 0, s => s
  | fuel + 1, c :: rest =>
    match dropLit pat (c :: rest) with
    | some afterPat => repl ++ replaceAllGo pat repl fuel afterPat
    | none => c :: replaceAllGo pat repl fuel rest

/-- Python `str.replace(old, new)` on character lists (the pattern is
non-empty at every call site, so fuel equal to the length suffices). -/
def replaceAll (pat repl s : List Char) : List Char :=
  replaceAllGo pat repl s.length s

/-- `re.sub(r'\s+', ' ', text)`: each maximal whitespace run becomes one
space. -/
def collapseWsGo : Nat → List Char → List Char
  | _, [] => []
  | 0, s => s
  | fuel + 1, c :: rest =>
    if isPyWhitespace c then
      ' ' :: collapseWsGo fuel (rest.dropWhile isPyWhitespace)
    else c :: collapseWsGo fuel rest

/-- Collapse whitespace runs to single spaces. -/
def collapseWs (s : List Char) : List Char := collapseWsGo s.length s

/-- `html_to_text` (normalizer/main.py lines 28-50): strip script and
style blocks, remove tags, apply the five entity replacements in source
order — note the source replaces the string `&gt;` with the EMPTY string,
not with `>` (line 44) — then collapse whitespace and strip. -/
def html_to_text (html : String) : String :=
  if html = "" then ""
  else
    let s1 := removeBlocks "script".data html.data
    let s2 := removeBlocks "style".data s1
    let s3 := removeTags s2
    let t1 := replaceAll "&nbsp;".data " ".data s3
    let t2 := replaceAll "&amp;".data "&".data t1
    let t3 := replaceAll "&lt;".data "<".data t2
    let t4 := replaceAll "&gt;".data [] t3
    let t5 := replaceAll "&quot;".data "\"".data t4
    pyStrip ⟨collapseWs t5⟩

/-! ## Sample inputs used by witnesses and counterexamples -/

/-- A routed-to-classify entry with a watcher name, as the semantic
filter emits for a matched email. -/
def sampleRoutedBilling : ToClassifyEvent :=
  { trace_id := "t1", mailbox_id := "alice@gmail.com", idemp_key := "k1",
    body_hash := "h1", text_content := "Your Netflix receipt, amount 15.99",
    subject := "Your Netflix receipt", external_id := "101",
    received_ts := "1700000000", filter_watcher_id := "w1",
    filter_watcher_name := "Billing", filter_query_id := "q1",
    filter_query_text := "invoice, payment, receipt" }

/-- A routed-to-classify entry whose `text_content` is empty. -/
def sampleEmptyText : ToClassifyEvent :=
  { sampleRoutedBilling with text_content := "" }

/-- A normalized event long enough to pass the 40-character gate. -/
def sampleNormalized : NormalizedEvent :=
  { trace_id := "t2", mailbox_id := "alice@gmail.com", idemp_key := "k2",
    body_hash := "h2",
    text_content := "This body text is clearly long enough for routing.",
    subject := "Your Netflix receipt", external_id := "102",
    received_ts := "1700000000" }

/-- A candidate row for the `Billing` watcher with threshold 0.3 and
cosine distance 0.7, so that its similarity equals its threshold. -/
def sampleCandidate : WatcherCandidate :=
  { watcher_id := "w1", watcher_name := "Billing",
    watcher_threshold := 3/10, query_id := "q1",
    query_text := "invoice, payment, receipt", cosine_distance := 7/10 }

/-- An environment with a cache hit whose RPC answer is the single
boundary candidate. -/
def envHit : FilterEnv :=
  { cache_only := false, cached := some [1], embed_response := [],
    match_watcher_queries := fun _ => [sampleCandidate] }

/-! ## Helper lemmas -/

/-- On any of the four LLM failure modes, `classify_email_with_claude`
returns the empty dict. -/
theorem classify_empty_of_failed (llm : LLMOutcome) (h : llmFailed llm = true) :
    classify_email_with_claude llm = ⟨none, none, none⟩ := by
  cases llm <;> simp_all [llmFailed, classify_email_with_claude]

/-- The watermark fold never decreases below its start. -/
theorem le_pollerBatchStep (batch : List PolledEmail) :
    ∀ last, last ≤ pollerBatchStep last batch := by
  induction batch with
  | nil => intro last; simp [pollerBatchStep]
  | cons e t ih =>
    intro last
    unfold pollerBatchStep at *
    simp only [List.foldl_cons]
    refine le_trans ?_ (ih _)
    by_cases h : last < e.uid
    · simp only [h, if_true]; omega
    · simp [h]

/-- Folding any sequence of batches never decreases the watermark. -/
theorem le_foldl_pollerBatchStep (batches : List (List PolledEmail)) :
    ∀ last, last ≤ batches.foldl pollerBatchStep last := by
  induction batches with
  | nil => intro last; simp
  | cons b t ih =>
    intro last
    simp only [List.foldl_cons]
    exact le_trans (le_pollerBatchStep b last) (ih _)

/-! ## Claims -/

/-- Claim C1, counterexample: with a failed message upsert (and a
classification upsert that would fail too), the persister still
acknowledges the entry — contradicting the claim that it does not ack
until both upserts have succeeded and leaves the event un-acked on a
transient failure.  A failed classification upsert after a successful
message upsert is acked as well. -/
theorem persister_acks_despite_failed_upsert :
    (persisterStep none false).acked = true ∧
    (persisterStep none false).classification_attempted = false ∧
    (persisterStep (some 7) false).acked = true := by decide

/-- Claim C1, amended: the persister acknowledges every delivered
classified event unconditionally — whatever the two upserts did — and
attempts the classification upsert exactly when the message upsert
returned a truthy row id. -/
theorem persister_ack_unconditional :
    ∀ (m : Option Int) (c : Bool),
      (persisterStep m c).acked = true ∧
      (persisterStep m c).classification_attempted = optIntTruthy m := by
  intro m c
  unfold persisterStep
  cases h : optIntTruthy m <;> simp [h]

/-- Claim C2, counterexample: the classification upsert is keyed by
`message_id`, but on conflict it updates the columns
`vendor, amount_cents, currency, class, confidence, updated_at` — there
are no `watcher_id` or `extracted_data` columns, and a conflicting
upsert overwrites the stored vendor, which the claimed update set would
leave untouched. -/
theorem classification_upsert_columns_differ :
    classification_conflict_key = "message_id" ∧
    "watcher_id" ∉ classification_update_columns ∧
    "extracted_data" ∉ classification_update_columns ∧
    "vendor" ∈ classification_update_columns ∧
    upsert_classification
      (fun k => if k = 1 then some ⟨"Netflix", 1599, "USD", "Billing", 9/10⟩
        else none)
      1 ⟨"", 0, "", "Billing", 8/10⟩ 1 = some ⟨"", 0, "", "Billing", 8/10⟩ := by
  refine ⟨rfl, by decide, by decide, by decide, ?_⟩
  simp [upsert_classification]

/-- Claim C2, amended: the classification upsert is keyed by
`message_id` (the row id returned by the message upsert): under that key
the stored row becomes the incoming row, every other key is untouched,
and the on-conflict SET list is exactly
`vendor, amount_cents, currency, class, confidence, updated_at`. -/
theorem classification_upsert_keyed_by_message_id :
    ∀ (table : ClassificationTable) (mid : Int) (row : ClassificationRow)
      (k : Int),
      upsert_classification table mid row mid = some row ∧
      (k ≠ mid → upsert_classification table mid row k = table k) ∧
      classification_conflict_key = "message_id" ∧
      classification_update_columns =
        ["vendor", "amount_cents", "currency", "class", "confidence",
         "updated_at"] := by
  intro table mid row k
  refine ⟨by simp [upsert_classification], ?_, rfl, rfl⟩
  intro h
  simp [upsert_classification, h]

/-- Witness for the amended C2 theorem at a concrete table and keys. -/
theorem classification_upsert_keyed_witness :
    upsert_classification (fun _ => none) 1 ⟨"v", 1, "USD", "Billing", 1⟩ 2 =
      none := by
  have h := classification_upsert_keyed_by_message_id (fun _ => none) 1
    ⟨"v", 1, "USD", "Billing", 1⟩ 2
  exact h.2.1 (by decide)

/-- Claim C9, counterexample: a batch with a single fetched email whose
publish to the stream failed still advances the watermark from 3 to 5,
although zero publishes succeeded — contradicting both "not advanced
unless at least one publish succeeded" and "publish failures abort the
batch with no watermark move". -/
theorem watermark_advances_without_publish :
    pollerBatchStep 3 [⟨5, true, false⟩] = 5 ∧
    successfulPublishes [⟨5, true, false⟩] = 0 := by decide

/-- Claim C9, amended: the watermark is monotonically non-decreasing per
mailbox, both per batch and over any sequence of batches, but it is
advanced to the maximal UID of every non-empty fetched batch regardless
of gate decisions and publish outcomes: replacing every email's gate and
publish flags by anything at all leaves the new watermark unchanged, and
the loop counts every email of the batch as published. -/
theorem watermark_monotone_ignores_publish :
    ∀ (last : Nat) (batch : List PolledEmail)
      (batches : List (List PolledEmail)) (f g : PolledEmail → Bool),
      last ≤ pollerBatchStep last batch ∧
      last ≤ batches.foldl pollerBatchStep last ∧
      pollerBatchStep last (batch.map (fun e => ⟨e.uid, f e, g e⟩)) =
        pollerBatchStep last batch ∧
      pollerPublishedCount batch = batch.length := by
  intro last batch batches f g
  refine ⟨le_pollerBatchStep batch last, le_foldl_pollerBatchStep batches last,
    ?_, rfl⟩
  simp [pollerBatchStep, List.foldl_map]

/-- Claim C10: on an empty `mailbox_id` or an empty `body_hash` the
semantic filter acknowledges the entry once and does nothing else — no
cache lookup, no embedding call, no upsert, no RPC, no emit. -/
theorem filter_skips_empty_identifiers :
    ∀ (env : FilterEnv) (fields : NormalizedEvent),
      fields.mailbox_id = "" ∨ fields.body_hash = "" →
      semanticFilterStep env fields =
        { emitted := none, acks := 1, cache_lookups := 0, embed_calls := 0,
          cache_upserts := 0, rpc_calls := 0 } := by
  intro env fields h
  unfold semanticFilterStep
  rcases h with h | h <;> simp [h]

/-- Witness for C10 at a concrete environment and event. -/
theorem filter_skips_empty_identifiers_witness :
    semanticFilterStep envHit { sampleNormalized with mailbox_id := "" } =
      { emitted := none, acks := 1, cache_lookups := 0, embed_calls := 0,
        cache_upserts := 0, rpc_calls := 0 } :=
  filter_skips_empty_identifiers envHit _ (Or.inl rfl)

/-- Claim C3, counterexample: on an LLM API failure the classifier
still publishes a classified event when the input carried a watcher
name, though the input is acked — contradicting the claim that it emits
nothing in every LLM failure mode. -/
theorem classifier_publishes_on_llm_failure :
    ((classifierStep sampleRoutedBilling LLMOutcome.apiError).published).isSome
      = true ∧
    (classifierStep sampleRoutedBilling LLMOutcome.apiError).acked = true := by
  decide

/-- Claim C3, amended: on an LLM failure, malformed JSON, or empty
response the classifier always acks the input; it emits no classified
event exactly when the text content or the watcher name is empty — with
a watcher name present it still publishes, with class equal to the
watcher name, confidence 0, and empty extracted data. -/
theorem classifier_failure_handling :
    ∀ (fields : ToClassifyEvent) (llm : LLMOutcome), llmFailed llm = true →
      (classifierStep fields llm).acked = true ∧
      ((classifierStep fields llm).published = none ↔
        (fields.text_content = "" ∨ fields.filter_watcher_name = "")) ∧
      (∀ e, (classifierStep fields llm).published = some e →
        e.class_type = fields.filter_watcher_name ∧ e.confidence = 0 ∧
        e.extracted_data = []) := by
  intro fields llm h
  have hc := classify_empty_of_failed llm h
  have h710 : ¬ ((7 : Rat)/10 ≤ 0) := by norm_num
  by_cases ht : fields.text_content = "" <;>
    by_cases hw : fields.filter_watcher_name = "" <;>
    simp [classifierStep, hc, ht, hw, h710, publish_classified, optStrTruthy]

/-- Witness for the amended C3 theorem at a concrete entry and failure. -/
theorem classifier_failure_handling_witness :
    llmFailed LLMOutcome.emptyResponse = true ∧
    (classifierStep sampleRoutedBilling LLMOutcome.emptyResponse).acked =
      true :=
  ⟨by decide,
   (classifier_failure_handling sampleRoutedBilling LLMOutcome.emptyResponse
     (by decide)).1⟩

/-- Claim C4, counterexample: an input with a watcher name but empty
`text_content` is never classified and nothing is published, though the
claimed publish rule (watcher name provided) asks for a publish. -/
theorem classifier_skips_empty_text :
    sampleEmptyText.filter_watcher_name ≠ "" ∧
    (classifierStep sampleEmptyText
      (LLMOutcome.parsed "Billing" (9/10) [("vendor", "Netflix")])).published
      = none := by decide

/-- Claim C4, amended: the classifier publishes a classified event iff
the text content is non-empty AND at least one of: a watcher name was
provided, the confidence of the parsed classification (0 when the dict
is empty) is at least 0.7, or the extracted data is non-empty; and
whenever it publishes with a watcher name present and an un-truthy
`class` in the dict, the published class is the watcher name. -/
theorem classifier_publish_rule :
    ∀ (fields : ToClassifyEvent) (llm : LLMOutcome),
      ((classifierStep fields llm).published.isSome = true ↔
        (fields.text_content ≠ "" ∧
          (fields.filter_watcher_name ≠ "" ∨
           (7 : Rat)/10 ≤ (classify_email_with_claude llm).confidence.getD 0 ∨
           (classify_email_with_claude llm).extracted_data.getD [] ≠ []))) ∧
      (∀ e, (classifierStep fields llm).published = some e →
        fields.filter_watcher_name ≠ "" →
        optStrTruthy (classify_email_with_claude llm).class_field = false →
        e.class_type = fields.filter_watcher_name) := by
  intro fields llm
  constructor
  · by_cases ht : fields.text_content = ""
    · simp [classifierStep, ht]
    · by_cases hw : fields.filter_watcher_name = "" <;>
        by_cases hconf : (7 : Rat)/10 ≤
          (classify_email_with_claude llm).confidence.getD 0 <;>
        by_cases hex :
          (classify_email_with_claude llm).extracted_data.getD [] = [] <;>
        simp [classifierStep, ht, hw, hconf, hex, bne_iff_ne]
  · intro e he hw hcls
    by_cases ht : fields.text_content = ""
    · simp [classifierStep, ht] at he
    · simp only [classifierStep, ht, if_false] at he
      have hwb : (fields.filter_watcher_name != "") = true := by
        simpa [bne_iff_ne] using hw
      simp only [hwb, Bool.true_or, if_true, hcls, Bool.and_true,
        Bool.not_false, Option.some.injEq] at he
      rw [← he]
      simp [publish_classified]

/-- Witness for the amended C4 theorem: a concrete entry with a watcher
name and non-empty text is published. -/
theorem classifier_publish_rule_witness :
    (classifierStep sampleRoutedBilling
      (LLMOutcome.parsed "" (1/2) [])).published.isSome = true :=
  (classifier_publish_rule sampleRoutedBilling
    (LLMOutcome.parsed "" (1/2) [])).1.mpr ⟨by decide, Or.inl (by decide)⟩

/-- Claim C5: for every normalized event that reaches the routing
decision — non-empty identifiers, assembled text of at least 40
characters, and a non-empty candidate list obtained with the embedding
the handler actually uses — the semantic filter emits a routed event iff
the top row's similarity `1 - cosine_distance` is at least that row's
watcher threshold (so equality routes), and it acknowledges the input
exactly once either way. -/
theorem filter_routing_decision :
    ∀ (env : FilterEnv) (fields : NormalizedEvent) (emb : List Rat)
      (best : WatcherCandidate) (rest : List WatcherCandidate),
      fields.mailbox_id ≠ "" → fields.body_hash ≠ "" →
      40 ≤ (build_email_text fields.subject fields.text_content).length →
      effectiveEmbedding env = some emb →
      env.match_watcher_queries emb = best :: rest →
      (((semanticFilterStep env fields).emitted.isSome = true) ↔
        best.watcher_threshold ≤
          similarity_from_cosine_distance best.cosine_distance) ∧
      (semanticFilterStep env fields).acks = 1 := by
  intro env fields emb best rest h1 h2 hlen heff hmatch
  have hnl : ¬ (build_email_text fields.subject fields.text_content).length
      < 40 := not_lt.mpr hlen
  have route : ((semanticFilterRoute fields (best :: rest)).isSome = true) ↔
      best.watcher_threshold ≤
        similarity_from_cosine_distance best.cosine_distance := by
    by_cases hth : best.watcher_threshold ≤
        similarity_from_cosine_distance best.cosine_distance <;>
      simp [semanticFilterRoute, hth]
  cases hc : env.cached with
  | some emb0 =>
    have hemb : emb0 = emb := by
      have := heff
      simp [effectiveEmbedding, hc] at this
      exact this
    subst hemb
    simp only [semanticFilterStep, h1, h2, hnl, hc, hmatch]
    simpa using route
  | none =>
    have hco : env.cache_only = false := by
      by_cases hb : env.cache_only
      · simp [effectiveEmbedding, hc, hb] at heff
      · simpa using hb
    have hemb : env.embed_response = emb := by
      have := heff
      simp [effectiveEmbedding, hc, hco] at this
      exact this
    simp only [semanticFilterStep, h1, h2, hnl, hc, hco, hemb, hmatch]
    simpa using route

/-- Witness for C5 at the similarity-equals-threshold boundary: the
candidate with threshold 0.3 and cosine distance 0.7 routes, with one
ack. -/
theorem filter_routing_decision_witness :
    (semanticFilterStep envHit sampleNormalized).emitted.isSome = true ∧
    (semanticFilterStep envHit sampleNormalized).acks = 1 := by
  have h := filter_routing_decision envHit sampleNormalized [1]
    sampleCandidate [] (by decide) (by decide) (by decide) rfl rfl
  exact ⟨h.1.mpr (by norm_num [sampleCandidate,
    similarity_from_cosine_distance]), h.2⟩

/-- Claim C6: threshold monotonicity of the routing decision — with the
candidate email and the top row's cosine distance fixed, if the decision
routes at the row's threshold, it also routes after lowering that
threshold to any smaller value. -/
theorem filter_threshold_monotone :
    ∀ (fields : NormalizedEvent) (best : WatcherCandidate)
      (rest : List WatcherCandidate) (T' : Rat),
      (semanticFilterRoute fields (best :: rest)).isSome = true →
      T' ≤ best.watcher_threshold →
      (semanticFilterRoute fields
        ({ best with watcher_threshold := T' } :: rest)).isSome = true := by
  intro fields best rest T' h hT
  by_cases hth : best.watcher_threshold ≤
      similarity_from_cosine_distance best.cosine_distance
  · have : T' ≤ similarity_from_cosine_distance best.cosine_distance :=
      le_trans hT hth
    simp [semanticFilterRoute, this]
  · simp [semanticFilterRoute, hth] at h

/-- Witness for C6: the boundary candidate routes at its threshold 0.3
and also at the lowered threshold 0.25. -/
theorem filter_threshold_monotone_witness :
    (semanticFilterRoute sampleNormalized
      ({ sampleCandidate with watcher_threshold := (1 : Rat)/4 } :: [])).isSome
      = true :=
  filter_threshold_monotone sampleNormalized sampleCandidate [] ((1 : Rat)/4)
    (by norm_num [semanticFilterRoute, sampleCandidate,
      similarity_from_cosine_distance])
    (by norm_num [sampleCandidate])

/-- UTF-8 encoding distributes over string concatenation. -/
theorem utf8Bytes_append (a b : String) :
    utf8Bytes (a ++ b) = utf8Bytes a ++ utf8Bytes b := by
  unfold utf8Bytes
  rw [String.data_append, List.flatMap_append]

/-- A SHA-256 digest is 32 bytes. -/
theorem sha256_length (msg : List Nat) : (sha256 msg).length = 32 := by
  simp [sha256, word32Bytes]

/-- Hex-encoding yields two characters per byte. -/
theorem flatMap_byteHex_length (bs : List Nat) :
    (bs.flatMap byteHex).length = 2 * bs.length := by
  induction bs with
  | nil => simp
  | cons b t ih => simp [byteHex, ih]; omega

/-- Every hex digit below 16 renders as a lowercase hex character. -/
theorem hexChar_mem_of_lt : ∀ n, n < 16 → hexChar n ∈ "0123456789abcdef".data := by
  decide

/-- Every character of a hex digest is a lowercase hex character. -/
theorem mem_hexDigest (bs : List Nat) (c : Char)
    (hc : c ∈ (hexDigest bs).data) : c ∈ "0123456789abcdef".data := by
  simp only [hexDigest] at hc
  rcases List.mem_flatMap.mp hc with ⟨b, _, hb⟩
  simp only [byteHex, List.mem_cons, List.mem_singleton] at hb
  rcases hb with h | h | h
  · exact h ▸ hexChar_mem_of_lt _ (Nat.mod_lt _ (by norm_num))
  · exact h ▸ hexChar_mem_of_lt _ (Nat.mod_lt _ (by norm_num))
  · cases h

/-- Claim C7: `build_idempotency_key` is the SHA-256 of the UTF-8 bytes
of the concatenation of provider, mailbox id, and external id, rendered
as a 64-character lowercase-hex string; as a pure function of the triple
it is identical across runs. -/
theorem idempotency_key_shape :
    ∀ p m e : String,
      build_idempotency_key p m e =
        hexDigest (sha256 (utf8Bytes p ++ utf8Bytes m ++ utf8Bytes e)) ∧
      (build_idempotency_key p m e).length = 64 ∧
      ∀ c ∈ (build_idempotency_key p m e).data, c ∈ "0123456789abcdef".data := by
  intro p m e
  refine ⟨?_, ?_, fun c hc => mem_hexDigest _ c hc⟩
  · unfold build_idempotency_key
    rw [utf8Bytes_append, utf8Bytes_append]
  · show (hexDigest (sha256 _)).length = 64
    simp only [hexDigest, String.length, flatMap_byteHex_length, sha256_length]

/-- Witness for C7 at a concrete triple. -/
theorem idempotency_key_shape_witness :
    (build_idempotency_key "gmail" "alice@gmail.com" "42").length = 64 :=
  (idempotency_key_shape "gmail" "alice@gmail.com" "42").2.1

/-- Claim C8: the conversion of an HTML-only body does strip script and
style blocks, remove tags, decode `&nbsp; &amp; &lt; &quot;`, and
collapse whitespace — but the source replaces `&gt;` with the EMPTY
string instead of `>` (normalizer/main.py line 44), so `a &gt; b`
becomes `a b`, not the `a > b` the specified entity decoding yields. -/
theorem html_gt_entity_dropped :
    html_to_text "<p>a &gt; b</p>" = "a b" ∧
    html_to_text "a &lt; b &amp; c &quot;d&quot;&nbsp;e" =
      "a < b & c \"d\" e" ∧
    html_to_text
      "<script>var x = 1;</script><style>p</style><b>bold</b>  text" =
      "bold text" := by
  refine ⟨?_, ?_, ?_⟩ <;> rfl

end EmailPipeline
